import Mathlib

/-!
Verification of the Nova-Ai voice assistant (Python sources under
backend/ and frontend/) against its natural-language specification.

The development shallowly embeds the relevant program text in Lean:

* Python strings are modelled as lists of characters (type Str below),
  and the string primitives the program uses (lower, strip, replace,
  split, rfind, substring containment) are given executable Lean
  counterparts with Python semantics (ASCII case mapping, which covers
  every string the program matches on).
* The intent router CommandHandler.process_command is translated rule
  by rule, in source order, into an ordered list of rule functions.
  Each rule returns the invoked effector action (an element of
  CmdResult) together with the session-context update it performs.
* The orchestration loop handle_recognized_text from frontend/app.py
  is translated into a state-transition function producing the next
  state and the list of effector invocations of that turn.
* The GroqClient conversation-history maintenance (chat and
  chat_as_atlas) is translated with the API call outcome as an
  explicit parameter (the hosted LLM is an external effector).
-/

namespace Nova

/-- Python strings are modelled as lists of characters. -/
abbrev Str := List Char

/-- Shorthand to obtain the character-list form of a Lean string literal. -/
def str (s : String) : Str := s.data

/-- The ASCII apostrophe character (written numerically). -/
def apo : Char := Char.ofNat 39

/-- ASCII lower-casing of one character, modelling Python str.lower on the
ASCII range (every phrase the program matches on is ASCII). -/
def lowerChar (c : Char) : Char :=
  if 65 ≤ c.toNat ∧ c.toNat ≤ 90 then Char.ofNat (c.toNat + 32) else c

/-- ASCII upper-casing of one character (used by the str.title model). -/
def upperChar (c : Char) : Char :=
  if 97 ≤ c.toNat ∧ c.toNat ≤ 122 then Char.ofNat (c.toNat - 32) else c

/-- Model of Python str.lower. -/
def lowerStr (l : Str) : Str := l.map lowerChar

/-- Python str.strip() whitespace set (ASCII whitespace). -/
def isWs (c : Char) : Bool :=
  c = ' ' || c = '\t' || c = '\n' || c = '\r' || c.toNat = 11 || c.toNat = 12

/-- Model of Python str.strip(): remove leading and trailing whitespace. -/
def stripStr (l : Str) : Str :=
  ((l.dropWhile isWs).reverse.dropWhile isWs).reverse

/-- Model of Python str.strip(chars): remove leading and trailing
characters belonging to the given set. -/
def stripChars (l : Str) (cs : List Char) : Str :=
  ((l.dropWhile (fun c => cs.contains c)).reverse.dropWhile
    (fun c => cs.contains c)).reverse

/-- Model of the Python containment test (pat in l). -/
def hasSub (l pat : Str) : Bool :=
  pat.isPrefixOf l ||
    match l with
    | [] => false
    | _ :: rest => hasSub rest pat

/-- Containment of any pattern in the list (the any(p in tl for p in ps)
idiom used throughout process_command). -/
def anyIn (l : Str) (ps : List Str) : Bool := ps.any (fun p => hasSub l p)

/-- Index of the leftmost occurrence of pat in l, if any. -/
def ffindIdx (l pat : Str) : Option Nat :=
  ((List.range (l.length + 1)).filter (fun i => pat.isPrefixOf (l.drop i))).head?

/-- Index of the rightmost occurrence of pat in l, if any: the model of
Python str.rfind (restricted to the case where pat occurs). -/
def rfindIdx (l pat : Str) : Option Nat :=
  ((List.range (l.length + 1)).filter (fun i => pat.isPrefixOf (l.drop i))).getLast?

/-- The part of l after the first occurrence of pat, or l itself when pat
does not occur: the model of Python l.split(pat, 1)[-1]. -/
def afterFirst (l pat : Str) : Str :=
  match ffindIdx l pat with
  | some i => l.drop (i + pat.length)
  | none => l

/-- The part of l before the first occurrence of pat, or l itself when pat
does not occur: the model of Python l.split(pat, 1)[0]. -/
def beforeFirst (l pat : Str) : Str :=
  match ffindIdx l pat with
  | some i => l.take i
  | none => l

/-- Model of Python l.replace(pat, repl, 1): replace the leftmost
occurrence of pat only. -/
def replaceFirst : Str → Str → Str → Str
  | [], _, _ => []
  | c :: rest, pat, repl =>
    if pat.isPrefixOf (c :: rest) && !pat.isEmpty then
      repl ++ (c :: rest).drop pat.length
    else
      c :: replaceFirst rest pat repl

/-- Fuel-indexed worker for replaceAll; the fuel is always instantiated
with the length of the list, which suffices for a full traversal. -/
def replaceAllF : Nat → Str → Str → Str → Str
  | 0, l, _, _ => l
  | n + 1, l, pat, repl =>
    match l with
    | [] => []
    | c :: rest =>
      if pat.isPrefixOf (c :: rest) && !pat.isEmpty then
        repl ++ replaceAllF n ((c :: rest).drop pat.length) pat repl
      else
        c :: replaceAllF n rest pat repl

/-- Model of Python l.replace(pat, repl): replace every non-overlapping
occurrence, scanning left to right. -/
def replaceAll (l pat repl : Str) : Str := replaceAllF l.length l pat repl

/-- Remove every occurrence of each pattern in turn (the sequential
.replace(x, "") chains used by several parsers). -/
def removeAllList (l : Str) (pats : List Str) : Str :=
  pats.foldl (fun s p => replaceAll s p []) l

/-- Fuel-indexed worker for splitOnSub. -/
def splitOnSubF : Nat → Str → Str → Str → List Str
  | 0, l, _, acc => [acc ++ l]
  | _ + 1, [], _, acc => [acc]
  | n + 1, c :: rest, pat, acc =>
    if pat.isPrefixOf (c :: rest) && !pat.isEmpty then
      acc :: splitOnSubF n ((c :: rest).drop pat.length) pat []
    else
      splitOnSubF n rest pat (acc ++ [c])

/-- Model of Python l.split(pat): split at every non-overlapping
occurrence, scanning left to right. -/
def splitOnSub (l pat : Str) : List Str := splitOnSubF l.length l pat []

/-- The model of Python l.split(pat)[-1]: text after the last
non-overlapping occurrence. -/
def lastSplitPart (l pat : Str) : Str := (splitOnSub l pat).getLast?.getD l

/-- Split on whitespace runs, as Python str.split() with no argument
does; used by the orchestration word-count heuristic. -/
def wsSplitAux : Str → Str → List Str
  | [], cur => if cur.isEmpty then [] else [cur.reverse]
  | c :: rest, cur =>
    if isWs c then
      if cur.isEmpty then wsSplitAux rest [] else cur.reverse :: wsSplitAux rest []
    else
      wsSplitAux rest (c :: cur)

/-- Model of Python str.split() (whitespace tokenisation). -/
def wsSplit (l : Str) : List Str := wsSplitAux l []

/-- ASCII letter test (used by the str.title model and the website
regular-expression model). -/
def isAlphaA (c : Char) : Bool :=
  (65 ≤ c.toNat && c.toNat ≤ 90) || (97 ≤ c.toNat && c.toNat ≤ 122)

/-- Characters of the class [a-zA-Z0-9-] from the website regex. -/
def isAlnumDash (c : Char) : Bool :=
  isAlphaA c || (48 ≤ c.toNat && c.toNat ≤ 57) || c = '-'

/-- Worker for pyTitle: the flag records whether the previous character
was a letter. -/
def pyTitleAux : Bool → Str → Str
  | _, [] => []
  | prevAlpha, c :: rest =>
    if isAlphaA c then
      (if prevAlpha then lowerChar c else upperChar c) :: pyTitleAux true rest
    else
      c :: pyTitleAux false rest

/-- Model of Python str.title() on the ASCII range (used when Chrome
profile names are normalised). -/
def pyTitle (l : Str) : Str := pyTitleAux false l

/-! Basic lemmas about the string model. -/

/-- hasSub decides list-infix containment. -/
theorem hasSub_iff (l pat : Str) : hasSub l pat = true ↔ pat <:+: l := by
  induction l with
  | nil =>
    cases pat with
    | nil => simp [hasSub, List.isPrefixOf]
    | cons p ps => simp [hasSub, List.isPrefixOf, List.infix_nil]
  | cons c rest ih =>
    rw [hasSub]
    simp [List.isPrefixOf_iff_prefix, ih, List.infix_cons_iff]

/-- A pattern that is a prefix is also a contained substring. -/
theorem hasSub_of_isPrefixOf {l pat : Str} (h : pat.isPrefixOf l = true) :
    hasSub l pat = true := by
  rw [hasSub_iff]
  exact (List.isPrefixOf_iff_prefix.mp h).isInfix

/-- Nothing nonempty is contained in the empty string. -/
theorem hasSub_nil {pat : Str} (h : pat ≠ []) : hasSub [] pat = false := by
  rw [hasSub]
  cases pat with
  | nil => exact absurd rfl h
  | cons c cs => rfl

/-- replaceFirst removes exactly the pattern when the pattern sits at the
front of the string. -/
theorem replaceFirst_of_isPrefixOf {l pat : Str} (hne : pat ≠ [])
    (h : pat.isPrefixOf l = true) : replaceFirst l pat [] = l.drop pat.length := by
  cases l with
  | nil =>
    cases pat with
    | nil => exact absurd rfl hne
    | cons p ps => simp [List.isPrefixOf] at h
  | cons c rest =>
    rw [replaceFirst, if_pos]
    · simp
    · simp [h, List.isEmpty_iff, hne]

/-- If the pattern does not occur, replaceAllF leaves the string alone,
for every amount of fuel. -/
theorem replaceAllF_of_not_hasSub {pat : Str} :
    ∀ (n : Nat) (l : Str) (repl : Str), hasSub l pat = false →
      replaceAllF n l pat repl = l := by
  intro n
  induction n with
  | zero => intro l repl _; rfl
  | succ n ih =>
    intro l repl h
    cases l with
    | nil => rfl
    | cons c rest =>
      rw [replaceAllF]
      have hpre : pat.isPrefixOf (c :: rest) = false := by
        rw [hasSub] at h
        simp only [Bool.or_eq_false_iff] at h
        exact h.1
      rw [if_neg]
      · have hrest : hasSub rest pat = false := by
          rw [hasSub] at h
          simp only [Bool.or_eq_false_iff] at h
          exact h.2
        rw [ih rest repl hrest]
      · simp [hpre]

/-- If the pattern does not occur, replaceAll leaves the string alone. -/
theorem replaceAll_of_not_hasSub {l pat : Str}
    (h : hasSub l pat = false) (repl : Str) : replaceAll l pat repl = l :=
  replaceAllF_of_not_hasSub l.length l repl h

/-- Strings fixed by stripStr are exactly those without surrounding
whitespace; this direction is the one the proofs need. -/
theorem stripStr_eq_self_iff {l : Str} :
    stripStr l = l ↔ ((l.dropWhile isWs).reverse.dropWhile isWs).reverse = l :=
  Iff.rfl

/-- Converting a small scalar value to a character and back is the
identity. -/
theorem toNat_charOfNat_small {n : Nat} (h : n < 55296) :
    (Char.ofNat n).toNat = n := by
  have hv : n.isValidChar := Or.inl h
  rw [Char.ofNat, dif_pos hv]
  rfl

/-- One lower-casing pass already produces a fixed point of lowerChar. -/
theorem lowerChar_idem (c : Char) : lowerChar (lowerChar c) = lowerChar c := by
  by_cases hc : 65 ≤ c.toNat ∧ c.toNat ≤ 90
  · have h1 : lowerChar c = Char.ofNat (c.toNat + 32) := by
      rw [lowerChar, if_pos hc]
    have h2 : (Char.ofNat (c.toNat + 32)).toNat = c.toNat + 32 :=
      toNat_charOfNat_small (by omega)
    rw [h1, lowerChar, if_neg]
    rw [h2]
    omega
  · have h1 : lowerChar c = c := by rw [lowerChar, if_neg hc]
    rw [h1, h1]

/-- Full lower-casing is idempotent, hence its images are exactly the
fully lower-cased strings. -/
theorem lowerStr_idem (l : Str) : lowerStr (lowerStr l) = lowerStr l := by
  unfold lowerStr
  rw [List.map_map]
  exact List.map_congr_left (fun c _ => lowerChar_idem c)

/-!
## Session context and the intent router

CommandHandler (backend/command_handler.py) keeps two pieces of session
context, active_app and active_profile, mutated only through the helper
_set_active_app (lines 62-72). The router process_command (lines
585-1118) is a first-match-wins chain of substring rules; it is
translated below rule by rule in source order. Each rule yields the
effector action it invokes (a CmdResult) and the context update it
performs (a StateUpd); rules whose Python body can fall through to later
rules (for example, profile commands with an empty extracted name)
return none in exactly those situations.

Environment-dependent branches are made explicit: the chromeFound field
of CmdIn mirrors whether a Chrome executable is found on disk (the only
existence check that changes which branch open_chrome and
open_chrome_profile take). Launchers whose both branches behave
identically for our purposes (Word, Excel, PowerPoint, Notepad) are
modelled on their non-raising path.
-/

/-- The session context of CommandHandler: active_app and
active_profile (command_handler.py lines 39-40). -/
structure HState where
  activeApp : Option Str
  activeProfile : Option Str
deriving DecidableEq

/-- Model of CommandHandler._set_active_app (lines 62-72): the profile
is retained only when the new active app is chrome. -/
def setActiveApp (h : HState) (app : Option Str) (profile : Option Str) : HState :=
  { activeApp := app
    activeProfile := if app = some (str "chrome") then profile else none }

/-- The session-context update a rule performs: nothing, a
_set_active_app call, or the close_application bookkeeping. -/
inductive StateUpd where
  | keep
  | set (app : Option Str) (profile : Option Str)
  | closeApp (procName : Str)
deriving DecidableEq

/-- Model of close_application (lines 127-144): clears the context when
the process name matches the app the handler believes is active. -/
def closeAppUpd (h : HState) (procName : Str) : HState :=
  if h.activeApp = some (str "chrome")
      && hasSub (lowerStr procName) (str "chrome") then
    setActiveApp h none none
  else if h.activeApp = some (str "notepad")
      && hasSub (lowerStr procName) (str "notepad") then
    setActiveApp h none none
  else h

/-- Apply a rule's context update to the session context. -/
def applyUpd (h : HState) : StateUpd → HState
  | .keep => h
  | .set a p => setActiveApp h a p
  | .closeApp n => closeAppUpd h n

/-- The effector action selected by the router, at the boundary to
DesktopAutomation / webbrowser / pywhatkit, or one of the sentinel
values and message-only results process_command returns. -/
inductive CmdResult where
  | getTime
  | getDate
  | openChrome
  | openBrowserFallback
  | openNotepad
  | openWord
  | openExcel
  | openPowerpoint
  | searchGoogle (q : Str)
  | openRecycleBin
  | confirmDialog (accept : Bool)
  | closeApplication (procName : Str)
  | closeActiveWindow
  | openChromeProfile (profile : Str)
  | openWebsite (url : Str)
  | searchInActiveBrowser (q : Str)
  | searchSelectedInChrome
  | selectAll
  | deleteSelection (withSelectAll : Bool)
  | pressSpace
  | pressBackspace
  | pressEnter
  | typeText (t : Str)
  | newDocument
  | fillExcel
  | fillWord
  | saveInActive
  | saveDialogToDesktop
  | saveNameUnclear
  | saveFileWithName (name : Str) (locationHint : Option Str)
  | shutdownRequest
  | restartRequest
  | sleepRequest
  | scrollDown
  | scrollUp
  | leftClick
  | rightClick
  | newTab
  | nextTab
  | previousTab
  | closeTab
  | folderNameUnclear
  | createFolder (name : Str) (locationHint : Str)
  | openFolder (name : Str)
  | searchYoutube (q : Str)
deriving DecidableEq

/-- One router invocation's inputs: the utterance, the strftime results
datetime.now() would produce this turn (get_time / get_date are reads of
an external clock), and whether a Chrome executable is found on disk. -/
structure CmdIn where
  text : Str
  now : Str
  today : Str
  chromeFound : Bool
deriving DecidableEq

/-- The outcome of open_chrome (lines 94-115): launch and set context
when the executable is found, otherwise the default-browser fallback
which does not touch the context. -/
def openChromeOutcome (cf : Bool) : CmdResult × StateUpd :=
  if cf then (.openChrome, .set (some (str "chrome")) none)
  else (.openBrowserFallback, .keep)

/-- The outcome of open_chrome_profile (lines 221-251): with Chrome on
disk the (title-cased) profile becomes the active context; otherwise the
method falls back to plain open_chrome. -/
def chromeProfileOutcome (cf : Bool) (part : Str) : CmdResult × StateUpd :=
  if cf then
    let profile := pyTitle (stripStr part)
    (.openChromeProfile profile, .set (some (str "chrome")) (some profile))
  else openChromeOutcome cf

/-- Rule: time queries (lines 600-601). -/
def ruleTime (tl : Str) : Option (CmdResult × StateUpd) :=
  if anyIn tl [str "time", str "what time", str "current time"] then
    some (.getTime, .keep)
  else none

/-- The pattern list for date queries, including the apostrophe form. -/
def datePhrases : List Str :=
  [str "date", str "what date", str "today" ++ [apo] ++ str "s date", str "todays date"]

/-- Rule: date queries (lines 604-608). -/
def ruleDate (tl : Str) : Option (CmdResult × StateUpd) :=
  if anyIn tl datePhrases then some (.getDate, .keep) else none

/-- Rule: open Chrome (lines 611-612). -/
def ruleChrome (tl : Str) (cf : Bool) : Option (CmdResult × StateUpd) :=
  if anyIn tl [str "open chrome", str "open google chrome", str "google chrome"] then
    some (openChromeOutcome cf)
  else none

/-- Rule: open Notepad (lines 615-616). -/
def ruleNotepad (tl : Str) : Option (CmdResult × StateUpd) :=
  if anyIn tl [str "open notepad", str "notepad"] then
    some (.openNotepad, .set (some (str "notepad")) none)
  else none

/-- Rule: open Word (lines 619-623). -/
def ruleWord (tl : Str) : Option (CmdResult × StateUpd) :=
  if anyIn tl [str "open word", str "microsoft word"] then
    some (.openWord, .set (some (str "word")) none)
  else none

/-- Rule: open Excel (lines 625-629). -/
def ruleExcel (tl : Str) : Option (CmdResult × StateUpd) :=
  if anyIn tl [str "open excel", str "microsoft excel"] then
    some (.openExcel, .set (some (str "excel")) none)
  else none

/-- Rule: open PowerPoint (lines 631-635). -/
def rulePowerpoint (tl : Str) : Option (CmdResult × StateUpd) :=
  if anyIn tl [str "open powerpoint", str "microsoft powerpoint"] then
    some (.openPowerpoint, .set (some (str "powerpoint")) none)
  else none

/-- The exclusion list guarding the generic search rule (lines 641-651). -/
def searchExclusions : List Str :=
  [str "search this on chrome", str "search this in chrome",
   str "search selected text", str "search in chrome", str "search in browser",
   str "chrome search", str "browser search", str "search youtube", str "youtube"]

/-- The filler words stripped from the front of an extracted query
(lines 668-670): one pass, in this order, each only when followed by a
space, slicing off the filler length and re-stripping. -/
def stripLeadingFiller (q : Str) (f : Str) : Str :=
  if (f ++ [' ']).isPrefixOf q then stripStr (q.drop f.length) else q

/-- Query extraction of the generic search rule (lines 652-673): the
four patterns in source order, then the filler pass; returns none
whenever the Python code would fall through to later rules. -/
def searchExtract (tl : Str) : Option Str :=
  let query? : Option Str :=
    if hasSub tl (str "search for") then
      some (stripStr (afterFirst tl (str "search for")))
    else if hasSub tl (str "search google for") then
      some (stripStr (afterFirst tl (str "search google for")))
    else if hasSub tl (str "search google") then
      some (stripStr (afterFirst tl (str "search google")))
    else if (str "search ").isPrefixOf tl then
      some (stripStr (replaceFirst tl (str "search") []))
    else none
  match query? with
  | none => none
  | some q =>
    if q.isEmpty then none
    else
      let q := [str "for", str "about", str "the", str "a", str "an",
                str "please"].foldl stripLeadingFiller q
      if q.isEmpty then none else some q

/-- Rule: generic search (lines 639-673). -/
def ruleSearch (tl : Str) : Option (CmdResult × StateUpd) :=
  if hasSub tl (str "search") && !(anyIn tl searchExclusions) then
    match searchExtract tl with
    | some q => some (.searchGoogle q, .keep)
    | none => none
  else none

/-- Rule: Recycle Bin (lines 678-682); open_recycle_bin sets the logical
context (lines 257-263). -/
def ruleRecycle (tl : Str) : Option (CmdResult × StateUpd) :=
  if anyIn tl [str "recycle bin", str "dustbin"] then
    some (.openRecycleBin, .set (some (str "recycle_bin")) none)
  else none

/-- Rule: generic dialog accept (lines 687-691), evaluated on every turn. -/
def ruleYes (tl : Str) : Option (CmdResult × StateUpd) :=
  if anyIn tl [str "yes", str "confirm", str "ok", str "okay"] then
    some (.confirmDialog true, .keep)
  else none

/-- Rule: generic dialog cancel (lines 693-697), evaluated on every turn. -/
def ruleNo (tl : Str) : Option (CmdResult × StateUpd) :=
  if anyIn tl [str "no", str "cancel", str "abort"] then
    some (.confirmDialog false, .keep)
  else none

/-- Rule: close Chrome by process name (lines 700-704). -/
def ruleCloseChrome (tl : Str) : Option (CmdResult × StateUpd) :=
  if anyIn tl [str "close chrome"] then
    some (.closeApplication (str "chrome.exe"), .closeApp (str "chrome.exe"))
  else none

/-- Rule: close Notepad by process name (lines 705-709). -/
def ruleCloseNotepad (tl : Str) : Option (CmdResult × StateUpd) :=
  if anyIn tl [str "close notepad"] then
    some (.closeApplication (str "notepad.exe"), .closeApp (str "notepad.exe"))
  else none

/-- Rule: close the active window (lines 712-720); clears the context. -/
def ruleCloseWindow (tl : Str) : Option (CmdResult × StateUpd) :=
  if anyIn tl [str "close it", str "close this", str "close window"] then
    some (.closeActiveWindow, .set none none)
  else none

/-- Rule: open Chrome with a named profile (lines 723-737). -/
def ruleProfileWith (tl : Str) (cf : Bool) : Option (CmdResult × StateUpd) :=
  if hasSub tl (str "open chrome with") || hasSub tl (str "chrome profile") then
    let part :=
      if hasSub tl (str "open chrome with") then afterFirst tl (str "open chrome with")
      else if hasSub tl (str "chrome profile") then afterFirst tl (str "chrome profile")
      else tl
    let part := stripStr (removeAllList part [str "account", str "name", str "profile"])
    if part.isEmpty then none else some (chromeProfileOutcome cf part)
  else none

/-- Rule: natural profile switching (lines 741-753). -/
def ruleProfileOpen (tl : Str) (cf : Bool) : Option (CmdResult × StateUpd) :=
  if hasSub tl (str "open profile") || hasSub tl (str "profile ") then
    let part :=
      if hasSub tl (str "open profile") then afterFirst tl (str "open profile")
      else if hasSub tl (str "profile") then afterFirst tl (str "profile")
      else tl
    let part :=
      stripStr (removeAllList part [str "open", str "account", str "name", str "profile"])
    if part.isEmpty then none else some (chromeProfileOutcome cf part)
  else none

/-- Leftmost match of the website regular expression
([a-zA-Z0-9-]+[.][a-zA-Z]{2,})(/nonspace*)? anchored at the start of l.
The character classes are disjoint from the delimiters that follow
them, so maximal-run scanning coincides with the greedy regex. -/
def matchDomainAt (l : Str) : Option Str :=
  let run1 := l.takeWhile isAlnumDash
  if run1.isEmpty then none
  else
    match l.drop run1.length with
    | '.' :: rest2 =>
      let run2 := rest2.takeWhile isAlphaA
      if run2.length < 2 then none
      else
        let rest3 := rest2.drop run2.length
        let tailPart : Str :=
          match rest3 with
          | '/' :: r => '/' :: r.takeWhile (fun c => !(isWs c))
          | _ => []
        some (run1 ++ ['.'] ++ run2 ++ tailPart)
    | _ => none

/-- Scan for the leftmost website-like token, as re.search does in
open_website_from_text (line 363). -/
def findDomain : Str → Option Str
  | [] => none
  | c :: rest =>
    match matchDomainAt (c :: rest) with
    | some m => some m
    | none => findDomain rest

/-- Model of open_website_from_text (lines 353-368): open a detected
domain, otherwise fall back to a Google search of the whole text. -/
def openWebsiteFromText (t : Str) : CmdResult :=
  let t := stripStr t
  match findDomain t with
  | some url => .openWebsite url
  | none => .searchGoogle t

/-- The website-opening trigger phrases (lines 756-764). -/
def websitePhrases : List Str :=
  [str "open website", str "website open", str "site open", str "open site"]

/-- Rule: open an arbitrary website (lines 756-776). -/
def ruleWebsite (tl : Str) : Option (CmdResult × StateUpd) :=
  if anyIn tl websitePhrases then
    let cleaned :=
      stripStr (replaceAll (removeAllList tl websitePhrases) (str "please") [])
    if cleaned.isEmpty then none
    else some (openWebsiteFromText cleaned, .keep)
  else none

/-- Rule: WhatsApp Web (lines 779-783); branches on the active app. -/
def ruleWhatsapp (h : HState) (tl : Str) : Option (CmdResult × StateUpd) :=
  if hasSub tl (str "whatsapp") then
    if h.activeApp = some (str "chrome") then
      some (.searchInActiveBrowser (str "https://web.whatsapp.com"), .keep)
    else
      some (.openWebsite (str "web.whatsapp.com"), .keep)
  else none

/-- Rule: ChatGPT shortcut (lines 786-790); branches on the active app. -/
def ruleChatgpt (h : HState) (tl : Str) : Option (CmdResult × StateUpd) :=
  if hasSub tl (str "chatgpt") || hasSub tl (str "chat gpt")
      || hasSub tl (str "open ai chat") then
    if h.activeApp = some (str "chrome") then
      some (.searchInActiveBrowser (str "https://chatgpt.com"), .keep)
    else
      some (.openWebsite (str "https://chatgpt.com"), .keep)
  else none

/-- Rule: select everything (lines 793-797). -/
def ruleSelectAll (tl : Str) : Option (CmdResult × StateUpd) :=
  if anyIn tl [str "select everything", str "select all"] then
    some (.selectAll, .keep)
  else none

/-- Rule: delete selection (lines 799-806); the everything/all variants
perform an internal select-all first. -/
def ruleDelete (tl : Str) : Option (CmdResult × StateUpd) :=
  if anyIn tl [str "delete this", str "delete everything", str "delete all"] then
    some (.deleteSelection
      (hasSub tl (str "delete everything") || hasSub tl (str "delete all")), .keep)
  else none

/-- Rule: search the current selection in Chrome (lines 813-821). -/
def ruleSearchSelected (tl : Str) : Option (CmdResult × StateUpd) :=
  if anyIn tl [str "search this on chrome", str "search this in chrome",
               str "search selected text"] then
    some (.searchSelectedInChrome, .keep)
  else none

/-- The browser-search phrases (lines 823-845); the trailing bare
"search" is also removed from the query before stripping. -/
def browserSearchPhrases : List Str :=
  [str "search in chrome", str "search in browser", str "chrome search",
   str "browser search"]

/-- Rule: browser search in the active window (lines 823-845). -/
def ruleBrowserSearch (tl : Str) : Option (CmdResult × StateUpd) :=
  if anyIn tl browserSearchPhrases then
    let cleaned :=
      stripStr (replaceAll
        (removeAllList tl (browserSearchPhrases ++ [str "search"])) (str "please") [])
    if cleaned.isEmpty then none
    else some (.searchInActiveBrowser cleaned, .keep)
  else none

/-- Rule: press space (lines 850-858); excluded when "backspace" occurs. -/
def ruleSpace (tl : Str) : Option (CmdResult × StateUpd) :=
  if anyIn tl [str "space", str "add space", str "insert space"]
      && !(hasSub tl (str "backspace")) then
    some (.pressSpace, .keep)
  else none

/-- Rule: press backspace (lines 861-869). -/
def ruleBackspace (tl : Str) : Option (CmdResult × StateUpd) :=
  if anyIn tl [str "backspace", str "delete character", str "remove character"] then
    some (.pressBackspace, .keep)
  else none

/-- Rule: press enter (lines 872-882). -/
def ruleEnter (tl : Str) : Option (CmdResult × StateUpd) :=
  if anyIn tl [str "enter", str "press enter", str "next line", str "new line",
               str "line break"] then
    some (.pressEnter, .keep)
  else none

/-- Rule: typing into the active window (lines 889-900). The trigger
index comes from rfind on the lower-cased stripped text, the typed
suffix from the original text, with the first occurrence of "type "
removed, every occurrence of "please" removed, and the result
whitespace-stripped. -/
def ruleTyping (tl t : Str) : Option (CmdResult × StateUpd) :=
  if hasSub tl (str "type ") then
    match rfindIdx tl (str "type ") with
    | none => none
    | some i =>
      let rawSuffix := t.drop i
      let cleaned :=
        stripStr (replaceAll (replaceFirst rawSuffix (str "type ") [])
          (str "please") [])
      if cleaned.isEmpty then none else some (.typeText cleaned, .keep)
  else none

/-- Rule: new document or tab (lines 907-911). -/
def ruleNewDocument (tl : Str) : Option (CmdResult × StateUpd) :=
  if anyIn tl [str "open new tab", str "new tab", str "new file"] then
    some (.newDocument, .keep)
  else none

/-- Rule: random people data, gated on the active app (lines 917-930);
falls through when neither Excel nor Word is active. -/
def rulePeople (h : HState) (tl : Str) : Option (CmdResult × StateUpd) :=
  if anyIn tl [str "10 random people", str "ten random people",
               str "random people data", str "people table",
               str "insert table for 10 people"] then
    if h.activeApp = some (str "excel") then some (.fillExcel, .keep)
    else if h.activeApp = some (str "word") then some (.fillWord, .keep)
    else none
  else none

/-- Rule: save in place (lines 936-945). -/
def ruleSave (tl : Str) : Option (CmdResult × StateUpd) :=
  if anyIn tl [str "save this", str "save it", str "save note", str "save file"] then
    some (.saveInActive, .keep)
  else none

/-- Rule: save the open dialog to the Desktop (lines 949-953). -/
def ruleSaveDesktop (tl : Str) : Option (CmdResult × StateUpd) :=
  if anyIn tl [str "save on desktop", str "save to desktop"] then
    some (.saveDialogToDesktop, .keep)
  else none

/-- Model of _save_with_name_to_location (lines 314-351): marker
detection (the second loop re-examines the original tail and can
override the first), raw substring filler removal, and quote stripping. -/
def saveWithNameParse (t : Str) : Option (CmdResult × StateUpd) :=
  let lt := lowerStr t
  if hasSub lt (str "save file with name") then
    let after := stripStr (afterFirst lt (str "save file with name"))
    let firstPass : Str × Option Str :=
      if hasSub after (str "on desktop") then
        (stripStr (beforeFirst after (str "on desktop")), some (str "desktop"))
      else if hasSub after (str "in desktop") then
        (stripStr (beforeFirst after (str "in desktop")), some (str "desktop"))
      else (after, none)
    let secondPass : Str × Option Str :=
      if hasSub after (str "in documents") then
        (stripStr (beforeFirst after (str "in documents")), some (str "documents"))
      else if hasSub after (str "on documents") then
        (stripStr (beforeFirst after (str "on documents")), some (str "documents"))
      else firstPass
    let namePart := removeAllList secondPass.1
      [str "called", str "named", str "name", str "file", str "folder", str "as"]
    let namePart := stripChars (stripChars (stripStr namePart) ['"']) [apo]
    if namePart.isEmpty then some (.saveNameUnclear, .keep)
    else some (.saveFileWithName namePart secondPass.2, .keep)
  else none

/-- Rule: save with an explicit name and location (lines 957-960). -/
def ruleSaveWithName (tl t : Str) : Option (CmdResult × StateUpd) :=
  if hasSub tl (str "save file with name") then saveWithNameParse t
  else none

/-- Rule: shutdown sentinel (lines 963-967). -/
def ruleShutdown (tl : Str) : Option (CmdResult × StateUpd) :=
  if anyIn tl [str "shutdown", str "shut down"] then
    some (.shutdownRequest, .keep)
  else none

/-- Rule: restart sentinel (lines 969-973). -/
def ruleRestart (tl : Str) : Option (CmdResult × StateUpd) :=
  if anyIn tl [str "restart", str "reboot"] then
    some (.restartRequest, .keep)
  else none

/-- Rule: sleep sentinel (lines 975-979). -/
def ruleSleep (tl : Str) : Option (CmdResult × StateUpd) :=
  if anyIn tl [str "sleep", str "sleep mode"] then
    some (.sleepRequest, .keep)
  else none

/-- Rule: scroll down (lines 984-991). -/
def ruleScrollDown (tl : Str) : Option (CmdResult × StateUpd) :=
  if anyIn tl [str "scroll down", str "page down"] then
    some (.scrollDown, .keep)
  else none

/-- Rule: scroll up (lines 993-1000). -/
def ruleScrollUp (tl : Str) : Option (CmdResult × StateUpd) :=
  if anyIn tl [str "scroll up", str "page up"] then
    some (.scrollUp, .keep)
  else none

/-- Rule: left click (lines 1003-1011). -/
def ruleClick (tl : Str) : Option (CmdResult × StateUpd) :=
  if anyIn tl [str "click that", str "click", str "left click"] then
    some (.leftClick, .keep)
  else none

/-- Rule: right click (lines 1013-1020). -/
def ruleRightClick (tl : Str) : Option (CmdResult × StateUpd) :=
  if anyIn tl [str "right click", str "right-click"] then
    some (.rightClick, .keep)
  else none

/-- Rule: new browser tab (lines 1024-1028). -/
def ruleNewTab (tl : Str) : Option (CmdResult × StateUpd) :=
  if anyIn tl [str "new tab", str "open new tab"] then
    some (.newTab, .keep)
  else none

/-- Rule: next browser tab (lines 1030-1034). -/
def ruleNextTab (tl : Str) : Option (CmdResult × StateUpd) :=
  if anyIn tl [str "next tab", str "switch to next tab"] then
    some (.nextTab, .keep)
  else none

/-- Rule: previous browser tab (lines 1036-1040). -/
def rulePreviousTab (tl : Str) : Option (CmdResult × StateUpd) :=
  if anyIn tl [str "previous tab", str "switch to previous tab"] then
    some (.previousTab, .keep)
  else none

/-- Rule: close browser tab (lines 1042-1046). -/
def ruleCloseTab (tl : Str) : Option (CmdResult × StateUpd) :=
  if anyIn tl [str "close tab", str "close this tab"] then
    some (.closeTab, .keep)
  else none

/-- Rule: create a folder (lines 1051-1073); the resolved base directory
depends on the user's home directory, so the model keeps the spoken
name and the location hint the code extracts. -/
def ruleCreateFolder (tl : Str) : Option (CmdResult × StateUpd) :=
  if hasSub tl (str "create folder") then
    let after := stripStr (afterFirst tl (str "create folder"))
    let pass : Str × Str :=
      if hasSub after (str "on desktop") then
        (stripStr (replaceAll after (str "on desktop") []), str "desktop")
      else if hasSub after (str "in documents") then
        (stripStr (replaceAll after (str "in documents") []), str "documents")
      else (after, [])
    let name := stripChars (stripChars (stripStr pass.1) ['"']) [apo]
    if name.isEmpty then some (.folderNameUnclear, .keep)
    else some (.createFolder name pass.2, .keep)
  else none

/-- Rule: open a folder (lines 1076-1098); keeps the cleaned spoken
name (the target path resolution is environment-dependent). -/
def ruleOpenFolder (tl : Str) : Option (CmdResult × StateUpd) :=
  if hasSub tl (str "open folder") || hasSub tl (str "folder ") then
    let part :=
      if hasSub tl (str "open folder") then afterFirst tl (str "open folder")
      else if hasSub tl (str "folder") then afterFirst tl (str "folder")
      else tl
    let part := removeAllList part [str "open", str "please"]
    let name := stripChars (stripChars (stripStr part) ['"']) [apo]
    if name.isEmpty then none else some (.openFolder name, .keep)
  else none

/-- Keyword extraction of the YouTube rule (lines 1104-1109): the first
matching keyword wins and the query is the part after its last
occurrence. -/
def ytExtract (tl : Str) : Str :=
  if hasSub tl (str "search youtube for") then lastSplitPart tl (str "search youtube for")
  else if hasSub tl (str "play on youtube") then lastSplitPart tl (str "play on youtube")
  else if hasSub tl (str "youtube") then lastSplitPart tl (str "youtube")
  else tl

/-- Rule: YouTube / media search (lines 1103-1114). -/
def ruleYoutube (tl : Str) : Option (CmdResult × StateUpd) :=
  if hasSub tl (str "search youtube for") || hasSub tl (str "youtube")
      || hasSub tl (str "play") then
    let q := stripStr (replaceAll (replaceAll (ytExtract tl) (str "play") [])
      (str "on") [])
    if !q.isEmpty && q.length > 2 then some (.searchYoutube q, .keep)
    else none
  else none

/-- First-match-wins over a list of already-evaluated rule outcomes. -/
def firstSome (l : List (Option (CmdResult × StateUpd))) :
    Option (CmdResult × StateUpd) :=
  l.foldl (fun acc o => match acc with | some r => some r | none => o) none

/-- The rules evaluated before the typing rule, in source order
(process_command lines 599-882). -/
def preTypingRules (h : HState) (tl t : Str) (cf : Bool) :
    Option (CmdResult × StateUpd) :=
  firstSome
    [ruleTime tl, ruleDate tl, ruleChrome tl cf, ruleNotepad tl, ruleWord tl,
     ruleExcel tl, rulePowerpoint tl, ruleSearch tl, ruleRecycle tl, ruleYes tl,
     ruleNo tl, ruleCloseChrome tl, ruleCloseNotepad tl, ruleCloseWindow tl,
     ruleProfileWith tl cf, ruleProfileOpen tl cf, ruleWebsite tl,
     ruleWhatsapp h tl, ruleChatgpt h tl, ruleSelectAll tl, ruleDelete tl,
     ruleSearchSelected tl, ruleBrowserSearch tl, ruleSpace tl,
     ruleBackspace tl, ruleEnter tl]

/-- The rules evaluated after the typing rule, in source order
(process_command lines 907-1114). -/
def postTypingRules (h : HState) (tl t : Str) : Option (CmdResult × StateUpd) :=
  firstSome
    [ruleNewDocument tl, rulePeople h tl, ruleSave tl, ruleSaveDesktop tl,
     ruleSaveWithName tl t, ruleShutdown tl, ruleRestart tl, ruleSleep tl,
     ruleScrollDown tl, ruleScrollUp tl, ruleClick tl, ruleRightClick tl,
     ruleNewTab tl, ruleNextTab tl, rulePreviousTab tl, ruleCloseTab tl,
     ruleCreateFolder tl, ruleOpenFolder tl, ruleYoutube tl]

/-- Model of CommandHandler.process_command (lines 585-1118): lower-case
and strip the utterance, scan the rules in source order, and apply the
selected rule's context update; unmatched utterances leave the context
alone and yield none. -/
def processCommand (h : HState) (inp : CmdIn) : Option CmdResult × HState :=
  match preTypingRules h (stripStr (lowerStr inp.text)) inp.text inp.chromeFound with
  | some (c, u) => (some c, applyUpd h u)
  | none =>
    match ruleTyping (stripStr (lowerStr inp.text)) inp.text with
    | some (c, u) => (some c, applyUpd h u)
    | none =>
      match postTypingRules h (stripStr (lowerStr inp.text)) inp.text with
      | some (c, u) => (some c, applyUpd h u)
      | none => (none, h)

/-!
## The GroqClient conversation history

GroqClient (backend/groq_client.py) keeps its own rolling history of
role/content records. The hosted chat completion is an external
effector; its outcome is an explicit parameter (ok with the reply text,
or error with the exception text).
-/

/-- Decidable equality for call outcomes (Except carries the reply or
the exception text). -/
instance : DecidableEq (Except Str Str) := fun a b =>
  match a, b with
  | .ok x, .ok y =>
    if h : x = y then isTrue (by rw [h]) else isFalse (by simp [h])
  | .error x, .error y =>
    if h : x = y then isTrue (by rw [h]) else isFalse (by simp [h])
  | .ok _, .error _ => isFalse (by simp)
  | .error _, .ok _ => isFalse (by simp)

/-- Message roles, shared by the Groq history and the UI history. -/
inductive Role where
  | user
  | assistant
deriving DecidableEq

/-- One Groq history record: role and content (lines 48-52, 151-152). -/
structure GMsg where
  role : Role
  content : Str
deriving DecidableEq

/-- The trim applied after appends (lines 76-77 and 153-154): when more
than 20 entries are present, keep the most recent 20. -/
def groqTrim (l : List GMsg) : List GMsg :=
  if l.length > 20 then l.drop (l.length - 20) else l

/-- Model of GroqClient.chat (lines 35-82): the user message is
appended before the API call, so a raised exception (the error case)
leaves the appended user message in place and skips both the assistant
append and the trim. Returns the new history and the returned string. -/
def chatCall (h : List GMsg) (u : Str) (api : Except Str Str) :
    List GMsg × Str :=
  let h1 := h ++ [⟨.user, u⟩]
  match api with
  | .error e =>
    (h1, str "Sorry, I encountered an error while processing your request: " ++ e)
  | .ok r => (groqTrim (h1 ++ [⟨.assistant, r⟩]), r)

/-- Model of GroqClient.chat_as_atlas (lines 92-158): both appends and
the trim happen only after the API call succeeded, so a failure leaves
the history unchanged and returns the Urdu apology string. -/
def atlasCall (h : List GMsg) (u : Str) (api : Except Str Str) :
    List GMsg × Str :=
  match api with
  | .error e => (h, str "Maaf kijiye boss, mujhe koi masla aa gaya: " ++ e)
  | .ok r => (groqTrim (h ++ [⟨.user, u⟩, ⟨.assistant, r⟩]), r)

/-- A call into the GroqClient together with its API outcome. -/
inductive GCall where
  | chat (u : Str) (api : Except Str Str)
  | atlas (u : Str) (api : Except Str Str)
deriving DecidableEq

/-- Run a sequence of GroqClient calls from the empty history the
constructor installs (line 33). -/
def runGroq (calls : List GCall) : List GMsg :=
  calls.foldl
    (fun h c =>
      match c with
      | .chat u api => (chatCall h u api).1
      | .atlas u api => (atlasCall h u api).1)
    []

/-- Successful chat_as_atlas turns only: the pair is the utterance and
the model reply. Used to state the history-bound property. -/
def atlasRun (turns : List (Str × Str)) : List GMsg :=
  turns.foldl (fun h p => (atlasCall h p.1 (.ok p.2)).1) []

/-- The full, untrimmed record stream the successful atlas turns
produce, in order. -/
def atlasAll (turns : List (Str × Str)) : List GMsg :=
  turns.foldl (fun acc p => acc ++ [⟨.user, p.1⟩, ⟨.assistant, p.2⟩]) []

/-- The most recent twenty entries of a list (Python l[-20:]). -/
def tail20 (l : List GMsg) : List GMsg := l.drop (l.length - 20)

/-!
## The orchestration loop

handle_recognized_text (frontend/app.py lines 302-568) is the per-turn
pipeline: mute/unmute intercepts, the confirmation state machine for
pending power actions, the intent router, the search heuristic, and the
conversational fallback. The Streamlit session state it mutates is
OrchState; the effector invocations of one turn are collected in a
list. The timestamp (time.strftime) and clock strings are turn inputs;
language_mode is the constant "english" installed by
initialize_session_state (line 79) and never changed elsewhere, so the
English response branches are the live ones and are the ones modelled.
The text-to-speech effector is modelled by its muted flag: speak
requests are suppressed while muted (text_to_speech.py lines 69-72).
-/

/-- The pending dangerous action (app.py lines 65-67): shutdown,
restart or sleep. -/
inductive SysAction where
  | shutdown
  | restart
  | sleep
deriving DecidableEq

/-- One UI conversation-history record (role, text, timestamp), as
appended at app.py lines 330-335, 345-350, 359-365 and 544-550. -/
structure ChatRec where
  role : Role
  text : Str
  timestamp : Str
deriving DecidableEq

/-- The Streamlit session state the per-turn handler reads and writes. -/
structure OrchState where
  pending : Option SysAction
  handler : HState
  muted : Bool
  history : List ChatRec
  groq : List GMsg
  lastResponse : Str
  lastCommand : Str
deriving DecidableEq

/-- The initial session state installed by initialize_session_state and
the component constructors. -/
def orchInit : OrchState :=
  { pending := none, handler := ⟨none, none⟩, muted := false, history := []
    groq := [], lastResponse := [], lastCommand := [] }

/-- The inputs of one orchestration turn: the recognized text, the
timestamp and clock strings of this turn, the Chrome-on-disk
environment flag, and the hosted-LLM call outcome should the turn fall
through to the conversational fallback. -/
structure TurnIn where
  text : Str
  ts : Str
  now : Str
  today : Str
  chromeFound : Bool
  groqApi : Except Str Str
deriving DecidableEq

/-- One effector invocation observed during a turn. -/
inductive Effect where
  | ttsMute
  | ttsUnmute
  | speak (t : Str)
  | power (k : SysAction)
  | cmd (c : CmdResult)
  | groqChat (u : Str)
  | echoTyping (t : Str)
deriving DecidableEq

/-- Model of _is_positive_confirmation (app.py lines 244-257). -/
def isPositiveConfirmation (t : Str) : Bool :=
  anyIn (lowerStr t)
    [str "yes", str "ok", str "okay", str "confirm", str "proceed",
     str "go ahead", str "sure", str "yep"]

/-- The negative keyword list (app.py lines 263-272), including the
apostrophe form. -/
def negativePhrases : List Str :=
  [str "no", str "cancel", str "abort", str "stop",
   str "don" ++ [apo] ++ str "t", str "do not", str "nope"]

/-- Model of _is_negative_confirmation (app.py lines 260-272). -/
def isNegativeConfirmation (t : Str) : Bool :=
  anyIn (lowerStr t) negativePhrases

/-- The user-facing action names interpolated into prompts. -/
def sysActionName : SysAction → Str
  | .shutdown => str "shutdown"
  | .restart => str "restart"
  | .sleep => str "sleep"

/-- The completion messages of _execute_pending_system_action (app.py
lines 289-297). -/
def executeMsg : SysAction → Str
  | .shutdown => str "Shutting down the system now."
  | .restart => str "Restarting the system now."
  | .sleep => str "Putting the system to sleep now."

/-- The re-prompt while a confirmation is pending (app.py lines
379-383). -/
def clarifyMsg (k : SysAction) : Str :=
  str "You requested a " ++ sysActionName k ++
  str " action. Please confirm by saying " ++ [apo] ++ str "yes" ++ [apo] ++
  str " to proceed or " ++ [apo] ++ str "no" ++ [apo] ++ str " to cancel."

/-- The cancellation message (app.py line 376). -/
def cancelMsg : Str := str "System action cancelled. No changes made."

/-- The confirmation prompts returned for the three sentinels (app.py
lines 393-407). -/
def sentinelPrompt : SysAction → Str
  | .shutdown =>
    str "Boss, kya aap waqai system shutdown karwana chahte hain? Please bolen: " ++
    [apo] ++ str "haan" ++ [apo] ++ str " ya " ++ [apo] ++ str "nahi" ++ [apo] ++ str "."
  | .restart =>
    str "Boss, system restart kar doon? Agar haan to bolen " ++ [apo] ++
    str "haan" ++ [apo] ++ str ", warna " ++ [apo] ++ str "nahi" ++ [apo] ++ str "."
  | .sleep =>
    str "Boss, system ko sleep mode mein daal doon? Please confirm: " ++ [apo] ++
    str "haan" ++ [apo] ++ str " ya " ++ [apo] ++ str "nahi" ++ [apo] ++ str "."

/-- The reply of the mute intercept (app.py lines 333 and 337). -/
def stopReply : Str :=
  str "Okay, I’ll stay quiet until you say " ++ [apo] ++ str "speak" ++ [apo] ++
  str " or " ++ [apo] ++ str "bolo" ++ [apo] ++ str "."

/-- The reply of the unmute intercept (app.py lines 347 and 352). -/
def speakReply : Str :=
  str "Voice output is back on. I’ll speak my responses again."

/-- The strings process_command's effectors return, embedded into the
acknowledgement responses; the clock-dependent parts come from the turn
inputs and environment-dependent path fragments are represented by the
spoken name (the claims never inspect these strings). -/
def cmdMsg (inp : TurnIn) : CmdResult → Str
  | .getTime => str "The current time is " ++ inp.now
  | .getDate => str "Today" ++ [apo] ++ str "s date is " ++ inp.today
  | .openChrome => str "Opening Google Chrome"
  | .openBrowserFallback => str "Opening browser"
  | .openNotepad => str "Opening Notepad"
  | .openWord => str "Opening Microsoft Word"
  | .openExcel => str "Opening Microsoft Excel"
  | .openPowerpoint => str "Opening Microsoft PowerPoint"
  | .searchGoogle q => str "Opening Google search for: " ++ q
  | .openRecycleBin => str "Opening Recycle Bin"
  | .confirmDialog true => str "Confirming the active dialog"
  | .confirmDialog false => str "Dismissing the active dialog"
  | .closeApplication p => str "Closing application: " ++ p
  | .closeActiveWindow => str "Closing the active window"
  | .openChromeProfile p => str "Opening Chrome with profile " ++ p
  | .openWebsite u =>
    str "Opening website: " ++
      (if (str "http://").isPrefixOf u || (str "https://").isPrefixOf u then u
       else str "https://" ++ u)
  | .searchInActiveBrowser q => str "Searching in the active browser window: " ++ q
  | .searchSelectedInChrome => str "Chrome is not the active window right now."
  | .selectAll => str "Selecting everything in the active window"
  | .deleteSelection _ => str "Deleting the current selection in the active window"
  | .pressSpace => str "Pressed space in the active window"
  | .pressBackspace => str "Pressed backspace 1 time(s) in the active window"
  | .pressEnter => str "Pressed enter 1 time(s) in the active window"
  | .typeText t => str "Typing in the active window: " ++ t
  | .newDocument => str "Creating a new document in the active window"
  | .fillExcel => str "Filled Excel sheet with random data for 10 people"
  | .fillWord => str "Inserted random people table into Word"
  | .saveInActive => str "Saving in the active window"
  | .saveDialogToDesktop => str "Saving the current file to Desktop: "
  | .saveNameUnclear => str "File name was not clear. Please specify a file name."
  | .saveFileWithName n _ => str "Saving file as " ++ n
  | .shutdownRequest => str "SYSTEM_SHUTDOWN_REQUEST"
  | .restartRequest => str "SYSTEM_RESTART_REQUEST"
  | .sleepRequest => str "SYSTEM_SLEEP_REQUEST"
  | .scrollDown => str "Scrolled down in the active window"
  | .scrollUp => str "Scrolled up in the active window"
  | .leftClick => str "Clicked at the current mouse position"
  | .rightClick => str "Right-clicked at the current mouse position"
  | .newTab => str "Opening a new browser tab"
  | .nextTab => str "Switching to the next browser tab"
  | .previousTab => str "Switching to the previous browser tab"
  | .closeTab => str "Closing the current browser tab"
  | .folderNameUnclear => str "Folder name was not clear. Please specify a folder name."
  | .createFolder n _ => str "Created folder: " ++ n
  | .openFolder n => str "Opening " ++ n
  | .searchYoutube q => str "Searching YouTube for " ++ q

/-- The acknowledgement chain for a handled command (app.py lines
409-479), in the English language mode the app runs in. -/
def formatCmdResponse (lt : Str) (msg : Str) : Str :=
  if anyIn lt [str "time", str "waqt"] then
    str "Yes boss, the current time is: " ++ msg
  else if anyIn lt [str "date", str "tareekh"] then
    str "Yes boss, today’s date is: " ++ msg
  else if hasSub lt (str "recycle bin") || hasSub lt (str "kooda")
      || hasSub lt (str "dustbin") then
    str "Yes boss, I have opened the Recycle Bin."
  else if hasSub lt (str "chrome") && hasSub lt (str "close") then
    str "Yes boss, I have closed Chrome."
  else if hasSub lt (str "notepad") && hasSub lt (str "close") then
    str "Yes boss, I have closed Notepad."
  else if hasSub lt (str "chrome") then
    str "Yes boss, I have opened Google Chrome."
  else if hasSub lt (str "notepad") then
    str "Yes boss, I have opened Notepad."
  else if hasSub lt (str "youtube") then
    str "Yes boss, I am searching on YouTube as you requested."
  else if hasSub lt (str "google") then
    str "Yes boss, I have run your search on Google."
  else if anyIn lt [str "select everything", str "select all",
                    str "sab select karo"] then
    str "Yes boss, I have selected everything in the current window."
  else if anyIn lt [str "delete this", str "ye delete karo",
                    str "delete everything", str "sab delete karo"] then
    str "Yes boss, I have deleted the selected items."
  else if anyIn lt [str "chrome par", str "chrome pe", str "browser par",
                    str "browser pe"] then
    str "Yes boss, I have run your search in the current browser window."
  else
    str "Yes boss, I have executed your command: " ++ msg

/-- The search-indicator phrases of the heuristic fallback (app.py line
486). -/
def searchIndicators : List Str :=
  [str "search for", str "what is", str "who is", str "where is",
   str "how to", str "tell me about"]

/-- The heuristic query check and extraction of step 3 (app.py lines
484-506): an indicator phrase, or more than two words together with a
question mark; the query is the tail after the first matching
indicator, or the raw text when only the question-mark branch fired. -/
def searchHeuristic (t lt : Str) : Option Str :=
  if anyIn lt searchIndicators
      || ((wsSplit t).length > 2 && hasSub t [Char.ofNat 63]) then
    let q :=
      match searchIndicators.find? (fun ind => hasSub lt ind) with
      | some ind => stripStr (afterFirst lt ind)
      | none => t
    if q.isEmpty then none else some q
  else none

/-- The authoring-verb guard for echoing generated content into the
active window (app.py lines 521-529). -/
def authoringGuard (lt : Str) : Bool :=
  anyIn lt [str "write ", str "generate ", str "create a paragraph",
            str "create paragraph", str "type "]

/-- Record the assistant response: append the history record, store
last_response (app.py lines 544-552), and request speech playback,
which the muted text-to-speech engine suppresses (app.py lines 556-558,
text_to_speech.py lines 69-72). -/
def finishTurn (st : OrchState) (inp : TurnIn) (resp : Str)
    (effs : List Effect) : OrchState × List Effect :=
  ({ st with history := st.history ++ [⟨.assistant, resp, inp.ts⟩]
             lastResponse := resp },
   effs ++ (if st.muted then [] else [Effect.speak resp]))

/-- Model of handle_recognized_text (app.py lines 302-568): the
mute/unmute intercepts, the user-record append, the confirmation state
machine, the intent router with its sentinel handling and response
formatting, the search heuristic, and the conversational fallback with
its authoring echo. -/
def handleRecognizedText (st : OrchState) (inp : TurnIn) :
    OrchState × List Effect :=
  if inp.text.isEmpty then (st, [])
  else
    let st := { st with lastCommand := inp.text }
    let lt := lowerStr inp.text
    if anyIn lt [str "stop", str "chup ho jao"] then
      ({ st with muted := true
                 history := st.history ++ [⟨.assistant, stopReply, inp.ts⟩]
                 lastResponse := stopReply },
       [Effect.ttsMute])
    else if anyIn lt [str "speak", str "bolo"] then
      ({ st with muted := false
                 history := st.history ++ [⟨.assistant, speakReply, inp.ts⟩]
                 lastResponse := speakReply },
       [Effect.ttsUnmute, Effect.speak speakReply])
    else
      let st :=
        { st with history := st.history ++ [(⟨.user, inp.text, inp.ts⟩ : ChatRec)] }
      match st.pending with
      | some k =>
        if isPositiveConfirmation inp.text then
          finishTurn { st with pending := none } inp (executeMsg k)
            [Effect.power k]
        else if isNegativeConfirmation inp.text then
          finishTurn { st with pending := none } inp cancelMsg []
        else
          finishTurn st inp (clarifyMsg k) []
      | none =>
        let pr := processCommand st.handler
          ⟨inp.text, inp.now, inp.today, inp.chromeFound⟩
        let st := { st with handler := pr.2 }
        match pr.1 with
        | some .shutdownRequest =>
          finishTurn { st with pending := some .shutdown } inp
            (sentinelPrompt .shutdown) []
        | some .restartRequest =>
          finishTurn { st with pending := some .restart } inp
            (sentinelPrompt .restart) []
        | some .sleepRequest =>
          finishTurn { st with pending := some .sleep } inp
            (sentinelPrompt .sleep) []
        | some c =>
          finishTurn st inp (formatCmdResponse lt (cmdMsg inp c)) [Effect.cmd c]
        | none =>
          match searchHeuristic inp.text lt with
          | some q =>
            finishTurn st inp (str "Opening Google search for: " ++ q)
              [Effect.cmd (.searchGoogle q)]
          | none =>
            let ar := atlasCall st.groq inp.text inp.groqApi
            let st := { st with groq := ar.1 }
            let effs :=
              [Effect.groqChat inp.text] ++
                (if authoringGuard lt then [Effect.echoTyping ar.2] else [])
            finishTurn st inp ar.2 effs

/-- Iterate the per-turn handler over a list of turns, keeping the
final state. -/
def runTurns (st : OrchState) (l : List TurnIn) : OrchState :=
  l.foldl (fun s i => (handleRecognizedText s i).1) st

/-- Whether an effect is a power effector invocation. -/
def isPowerEffect : Effect → Bool
  | .power _ => true
  | _ => false

/-- Whether a router result is a Google-search effector invocation. -/
def isGoogleSearchRes : Option CmdResult → Bool
  | some (.searchGoogle _) => true
  | _ => false

/-- The initial session context of a fresh CommandHandler (lines 39-40). -/
def hInit : HState := ⟨none, none⟩

/-- A router input with empty clock strings and Chrome present on disk. -/
def cmdInput (t : Str) : CmdIn := ⟨t, [], [], true⟩

/-- A turn input with empty clock strings, Chrome present, and a
successful empty-reply conversational fallback. -/
def turnInput (t : Str) : TurnIn := ⟨t, [], [], [], true, .ok []⟩

/-!
## Support lemmas
-/

/-- Once a rule has fired, later rules cannot override it. -/
theorem firstSome_foldl_some (x : CmdResult × StateUpd) :
    ∀ rest : List (Option (CmdResult × StateUpd)),
      rest.foldl
        (fun acc o => match acc with | some r => some r | none => o) (some x) =
      some x := by
  intro rest
  induction rest with
  | nil => rfl
  | cons o os ih => exact ih

/-- firstSome of a list whose head already fired. -/
theorem firstSome_cons_some (x : CmdResult × StateUpd)
    (rest : List (Option (CmdResult × StateUpd))) :
    firstSome (some x :: rest) = some x := by
  unfold firstSome
  rw [List.foldl_cons]
  exact firstSome_foldl_some x rest

/-- A successful rfind yields a position where the pattern occurs. -/
theorem rfindIdx_isPrefixOf {l pat : Str} {i : Nat}
    (h : rfindIdx l pat = some i) : pat.isPrefixOf (l.drop i) = true := by
  unfold rfindIdx at h
  have hm := List.mem_of_getLast?_eq_some h
  rw [List.mem_filter] at hm
  exact hm.2

/-- A successful rfind witnesses containment. -/
theorem hasSub_of_rfindIdx {l pat : Str} {i : Nat}
    (h : rfindIdx l pat = some i) : hasSub l pat = true := by
  rw [hasSub_iff]
  have hp := List.isPrefixOf_iff_prefix.mp (rfindIdx_isPrefixOf h)
  exact hp.isInfix.trans (List.drop_suffix i l).isInfix

/-- The session-context invariant of the specification: a profile is
recorded only while Chrome is the active app. -/
def routerInv (h : HState) : Prop :=
  h.activeApp ≠ some (str "chrome") → h.activeProfile = none

/-- Every _set_active_app call establishes the invariant, whatever the
arguments: a non-chrome app always clears the profile. -/
theorem routerInv_setActiveApp (h : HState) (a p : Option Str) :
    routerInv (setActiveApp h a p) := by
  intro hne
  simp only [setActiveApp] at hne ⊢
  rw [if_neg hne]

/-- Every context update a rule can request preserves the invariant. -/
theorem routerInv_applyUpd {h : HState} (hh : routerInv h) :
    ∀ u, routerInv (applyUpd h u)
  | .keep => hh
  | .set a p => routerInv_setActiveApp h a p
  | .closeApp n => by
    show routerInv (closeAppUpd h n)
    unfold closeAppUpd
    split
    · exact routerInv_setActiveApp _ _ _
    · split
      · exact routerInv_setActiveApp _ _ _
      · exact hh

/-- The router preserves the session-context invariant on every call. -/
theorem routerInv_processCommand {h : HState} (hh : routerInv h)
    (inp : CmdIn) : routerInv (processCommand h inp).2 := by
  unfold processCommand
  split
  · exact routerInv_applyUpd hh _
  · split
    · exact routerInv_applyUpd hh _
    · split
      · exact routerInv_applyUpd hh _
      · exact hh

/-- Run the router over a sequence of inputs from the fresh context. -/
def runRouter (inps : List CmdIn) : HState :=
  inps.foldl (fun h i => (processCommand h i).2) hInit

/-- The invariant is inductive along any router-call sequence. -/
theorem routerInv_foldl :
    ∀ (inps : List CmdIn) (h : HState), routerInv h →
      routerInv (inps.foldl (fun h i => (processCommand h i).2) h) := by
  intro inps
  induction inps with
  | nil => intro h hh; exact hh
  | cons i is ih =>
    intro h hh
    exact ih _ (routerInv_processCommand hh i)

/-- The trimmed Groq history never exceeds twenty entries. -/
theorem groqTrim_length_le (l : List GMsg) : (groqTrim l).length ≤ 20 := by
  unfold groqTrim
  split
  · rw [List.length_drop]
    omega
  · omega

/-- Trimming after appending two records to an already-trimmed history
agrees with trimming the full stream: the step lemma of the rolling
twenty-entry window. -/
theorem groqTrim_tail20_append (l : List GMsg) (x y : GMsg) :
    groqTrim (tail20 l ++ [x, y]) = tail20 (l ++ [x, y]) := by
  unfold groqTrim tail20
  by_cases hb : 19 ≤ l.length
  · rw [if_pos]
    · rw [List.drop_append_of_le_length
        (by simp only [List.length_append, List.length_drop, List.length_cons,
              List.length_nil]
            omega),
        List.drop_drop,
        List.drop_append_of_le_length
          (by simp only [List.length_append, List.length_cons, List.length_nil]
              omega)]
      congr 1
      congr 1
      simp only [List.length_append, List.length_drop, List.length_cons,
        List.length_nil]
      omega
    · simp only [List.length_append, List.length_drop, List.length_cons,
        List.length_nil]
      omega
  · have h0 : l.length - 20 = 0 := by omega
    rw [h0, List.drop_zero, if_neg]
    · have h1 : (l ++ [x, y]).length - 20 = 0 := by
        simp only [List.length_append, List.length_cons, List.length_nil]
        omega
      rw [h1, List.drop_zero]
    · simp only [List.length_append, List.length_cons, List.length_nil]
      omega

/-- Unfolding one successful atlas turn at the end of a run. -/
theorem atlasRun_concat (ts : List (Str × Str)) (p : Str × Str) :
    atlasRun (ts ++ [p]) =
      groqTrim (atlasRun ts ++ [GMsg.mk .user p.1, GMsg.mk .assistant p.2]) := by
  unfold atlasRun
  rw [List.foldl_append]
  rfl

/-- Unfolding one turn of the untrimmed record stream. -/
theorem atlasAll_concat (ts : List (Str × Str)) (p : Str × Str) :
    atlasAll (ts ++ [p]) =
      atlasAll ts ++ [GMsg.mk .user p.1, GMsg.mk .assistant p.2] := by
  unfold atlasAll
  rw [List.foldl_append]
  rfl

/-- Each turn contributes two records to the untrimmed stream. -/
theorem atlasAll_length (ts : List (Str × Str)) :
    (atlasAll ts).length = 2 * ts.length := by
  induction ts using List.reverseRecOn with
  | nil => rfl
  | append_singleton ts p ih =>
    rw [atlasAll_concat, List.length_append, ih]
    simp only [List.length_append, List.length_cons, List.length_nil]
    omega

/-- The rolling Groq history maintained by chat_as_atlas is exactly the
most recent twenty entries of the untrimmed record stream, in order. -/
theorem atlasRun_eq_tail20 (ts : List (Str × Str)) :
    atlasRun ts = tail20 (atlasAll ts) := by
  induction ts using List.reverseRecOn with
  | nil => rfl
  | append_singleton ts p ih =>
    rw [atlasRun_concat, ih, atlasAll_concat, groqTrim_tail20_append]

/-!
## Claim C1

The specification asserts that the ConversationHistory of the
orchestration loop (the role/text/timestamp records) is FIFO-trimmed to
twenty entries. The frontend never trims st.session_state
.conversation_history: handle_recognized_text only appends (app.py
lines 330, 345, 359, 544), so 25 turns leave 50 records (a user and an
assistant record per turn), not 20. The twenty-entry FIFO bound is real
but lives in the GroqClient history (groq_client.py lines 76-77 and
153-154); the amended claim states it there.
-/

/-- Claim C1, counterexample: after 25 turns (here 25 handled "time"
utterances) the orchestration-loop conversation history holds 50
records, not 20; no trim ever runs on it. -/
theorem claim_c1_counterexample :
    (runTurns orchInit (List.replicate 25 (turnInput (str "time")))).history.length
        = 50 ∧
    ¬ (runTurns orchInit
        (List.replicate 25 (turnInput (str "time")))).history.length = 20 := by
  decide

/-- Claim C1, amended: after at least ten successful chat_as_atlas
turns, the GroqClient conversation history has length exactly 20 and
equals the most recent twenty entries of the full record stream in
their original order (FIFO-trimmed from the oldest end); the
orchestration-loop history itself is unbounded. -/
theorem claim_c1_amended (turns : List (Str × Str))
    (h : 10 ≤ turns.length) :
    (atlasRun turns).length = 20 ∧
    atlasRun turns = tail20 (atlasAll turns) := by
  refine ⟨?_, atlasRun_eq_tail20 turns⟩
  rw [atlasRun_eq_tail20 turns]
  unfold tail20
  rw [List.length_drop, atlasAll_length]
  omega

/-- Witness for claim C1 at ten concrete turns. -/
theorem claim_c1_witness :
    10 ≤ (List.replicate 10 (str "u", str "r")).length ∧
    ((atlasRun (List.replicate 10 (str "u", str "r"))).length = 20 ∧
     atlasRun (List.replicate 10 (str "u", str "r")) =
       tail20 (atlasAll (List.replicate 10 (str "u", str "r")))) :=
  ⟨by decide, claim_c1_amended _ (by decide)⟩

/-!
## Claim C3

The session-context invariant: active_profile is set only while
active_app is chrome, and setting any other active app clears the
profile. Every context mutation of CommandHandler goes through
_set_active_app (or the close_application bookkeeping built on it), and
the translation shows the invariant is inductive over arbitrary router
call sequences, which covers the app-open, profile-open, app-close and
close-window commands in any order.
-/

/-- Claim C3: after any sequence of router calls the invariant holds
(active_profile is None whenever active_app is not chrome), and
_set_active_app with any non-chrome app clears the profile. -/
theorem claim_c3 :
    (∀ inps : List CmdIn, routerInv (runRouter inps)) ∧
    (∀ (h : HState) (a p : Option Str), a ≠ some (str "chrome") →
      (setActiveApp h a p).activeProfile = none) := by
  constructor
  · intro inps
    exact routerInv_foldl inps hInit (fun _ => rfl)
  · intro h a p hne
    simp only [setActiveApp]
    rw [if_neg hne]

/-- Witness for claim C3: a concrete open-notepad call leaves no
profile, and a non-chrome _set_active_app clears an existing profile. -/
theorem claim_c3_witness :
    (runRouter [cmdInput (str "open notepad")]).activeProfile = none ∧
    (setActiveApp ⟨some (str "chrome"), some (str "Default")⟩
      (some (str "notepad")) (some (str "P"))).activeProfile = none :=
  ⟨claim_c3.1 [cmdInput (str "open notepad")] (by decide),
   claim_c3.2 _ _ _ (by decide)⟩

/-!
## Claim C9

recognize_audio (backend/voice_recognition.py lines 30-62) lower-cases
on both the English and the Urdu fallback recognition path and returns
None on every failure path, so its result is always None or a fully
lower-cased string.
-/

/-- The outcome of one recognize_google call: recognized text, an
UnknownValueError, or a RequestError with its message. -/
inductive RecogOutcome where
  | ok (t : Str)
  | unknownValue
  | requestError (e : Str)
deriving DecidableEq

/-- Model of VoiceRecognizer.recognize_audio (lines 30-62): try English
first; on UnknownValueError try Urdu; every error path returns none,
and both success paths lower-case the text before returning. -/
def recognizeAudio (primary fallbackUrdu : RecogOutcome) : Option Str :=
  match primary with
  | .ok t => some (lowerStr t)
  | .unknownValue =>
    match fallbackUrdu with
    | .ok t => some (lowerStr t)
    | .unknownValue => none
    | .requestError _ => none
  | .requestError _ => none

/-- Claim C9: for every pair of recognition outcomes, recognize_audio
returns either none or a string fixed under lower-casing (that is, a
fully lower-cased string). -/
theorem claim_c9 (p f : RecogOutcome) :
    recognizeAudio p f = none ∨
    ∃ r, recognizeAudio p f = some r ∧ lowerStr r = r := by
  cases p with
  | ok t => exact Or.inr ⟨lowerStr t, rfl, lowerStr_idem t⟩
  | unknownValue =>
    cases f with
    | ok t => exact Or.inr ⟨lowerStr t, rfl, lowerStr_idem t⟩
    | unknownValue => exact Or.inl rfl
    | requestError e => exact Or.inl rfl
  | requestError e => exact Or.inl rfl

/-!
## Claim C10

The claim asserts the GroqClient history never exceeds twenty entries
after any chat or chat_as_atlas call. chat appends the user message
before the API call (groq_client.py lines 48-53) and the except branch
(lines 81-82) skips the trim, so a failing chat call on a twenty-entry
history leaves twenty-one entries. With every chat call succeeding
(chat_as_atlas may still fail, since it appends only on success), the
twenty-entry bound is inductive.
-/

/-- Whether a GroqClient call is a chat call whose API invocation
raised. -/
def chatOk : GCall → Bool
  | .chat _ (.error _) => false
  | _ => true

/-- Claim C10, counterexample: ten successful chat calls fill the
history to twenty entries; one failing chat call then leaves
twenty-one, exceeding the bound the claim asserts. -/
theorem claim_c10_counterexample :
    (runGroq (List.replicate 10 (GCall.chat (str "u") (.ok (str "r"))) ++
        [GCall.chat (str "u") (.error (str "boom"))])).length = 21 ∧
    ¬ (runGroq (List.replicate 10 (GCall.chat (str "u") (.ok (str "r"))) ++
        [GCall.chat (str "u") (.error (str "boom"))])).length ≤ 20 := by
  decide

/-- The twenty-entry bound is preserved by every call except a failing
chat call. -/
theorem groqStep_length_le :
    ∀ (calls : List GCall) (h : List GMsg), h.length ≤ 20 →
      calls.all chatOk = true →
      (calls.foldl
        (fun h c =>
          match c with
          | .chat u api => (chatCall h u api).1
          | .atlas u api => (atlasCall h u api).1)
        h).length ≤ 20 := by
  intro calls
  induction calls with
  | nil => intro h hh _; exact hh
  | cons c cs ih =>
    intro h hh hok
    rw [List.all_cons, Bool.and_eq_true] at hok
    rw [List.foldl_cons]
    refine ih _ ?_ hok.2
    cases c with
    | chat u api =>
      cases api with
      | error e => simp [chatOk] at hok
      | ok r => exact groqTrim_length_le _
    | atlas u api =>
      cases api with
      | error e => exact hh
      | ok r => exact groqTrim_length_le _

/-- Claim C10, amended: provided every chat call's API invocation
succeeds (chat_as_atlas calls may fail freely, as they append nothing
on failure), the GroqClient history never exceeds twenty entries; a
failing chat call can leave twenty-one, as the counterexample shows. -/
theorem claim_c10_amended (calls : List GCall)
    (hok : calls.all chatOk = true) : (runGroq calls).length ≤ 20 :=
  groqStep_length_le calls [] (by decide) hok

/-- Witness for claim C10 on a concrete mixed call sequence. -/
theorem claim_c10_witness :
    ([GCall.atlas (str "a") (.error (str "x")),
      GCall.chat (str "b") (.ok (str "c"))].all chatOk = true) ∧
    (runGroq [GCall.atlas (str "a") (.error (str "x")),
      GCall.chat (str "b") (.ok (str "c"))]).length ≤ 20 :=
  ⟨by decide, claim_c10_amended _ (by decide)⟩

/-!
## Claim C2

The claim asserts that "no" while no system action is pending is a
no-op: no effector invoked, all session state unchanged. The state part
holds, but the router's always-on dialog-cancel rule (command_handler.py
lines 693-697) matches the utterance "no" and invokes
desktop.confirm_active_dialog(accept=False), an Escape keypress on the
focused window: an effector invocation. The specification itself notes
this precedence hazard in its design notes.
-/

/-- Claim C2, counterexample: processing "no" while Idle invokes the
dialog-cancel effector, so it is not effector-free. -/
theorem claim_c2_counterexample :
    Effect.cmd (CmdResult.confirmDialog false) ∈
      (handleRecognizedText orchInit (turnInput (str "no"))).2 := by
  decide

/-- Claim C2, amended: processing "no" while Idle leaves the pending
action, active app, active profile and mute flag unchanged and invokes
no power effector, but it does invoke the dialog-cancel effector. -/
theorem claim_c2_amended :
    (handleRecognizedText orchInit (turnInput (str "no"))).1.pending = none ∧
    (handleRecognizedText orchInit (turnInput (str "no"))).1.handler = hInit ∧
    (handleRecognizedText orchInit (turnInput (str "no"))).1.muted = false ∧
    Effect.cmd (CmdResult.confirmDialog false) ∈
      (handleRecognizedText orchInit (turnInput (str "no"))).2 ∧
    (handleRecognizedText orchInit (turnInput (str "no"))).2.countP
      isPowerEffect = 0 := by
  decide

/-!
## Claim C4

The shutdown confirmation scenario: "shutdown" from Idle stores the
pending action and invokes no power effector (the router returns the
SYSTEM_SHUTDOWN_REQUEST sentinel, app.py lines 391-396); "yes" then
executes the shutdown effector exactly once and clears the pending
action (app.py lines 370-373 and 275-299).
-/

/-- Claim C4: the two-turn shutdown scenario behaves as specified. -/
theorem claim_c4 :
    (handleRecognizedText orchInit (turnInput (str "shutdown"))).1.pending =
      some SysAction.shutdown ∧
    (handleRecognizedText orchInit (turnInput (str "shutdown"))).2.countP
      isPowerEffect = 0 ∧
    (handleRecognizedText
      (handleRecognizedText orchInit (turnInput (str "shutdown"))).1
      (turnInput (str "yes"))).1.pending = none ∧
    (handleRecognizedText
      (handleRecognizedText orchInit (turnInput (str "shutdown"))).1
      (turnInput (str "yes"))).2.count (Effect.power SysAction.shutdown) = 1 ∧
    (handleRecognizedText
      (handleRecognizedText orchInit (turnInput (str "shutdown"))).1
      (turnInput (str "yes"))).2.countP isPowerEffect = 1 := by
  decide

/-!
## Claim C5

Time queries are the very first rule of process_command (lines
600-601), so any utterance whose normalised form contains "time" is
answered with the fixed time response and can never reach the generic
search rule, even when "search" also occurs.
-/

/-- Claim C5: every utterance containing the time trigger token is
routed to get_time and never to the Google-search effector. -/
theorem claim_c5 (h : HState) (inp : CmdIn)
    (ht : hasSub (stripStr (lowerStr inp.text)) (str "time") = true) :
    (processCommand h inp).1 = some CmdResult.getTime ∧
    isGoogleSearchRes (processCommand h inp).1 = false := by
  have hc : anyIn (stripStr (lowerStr inp.text))
      [str "time", str "what time", str "current time"] = true := by
    unfold anyIn
    rw [List.any_eq_true]
    exact ⟨str "time", by simp, ht⟩
  have htl : ruleTime (stripStr (lowerStr inp.text)) =
      some (CmdResult.getTime, StateUpd.keep) := by
    unfold ruleTime
    rw [if_pos hc]
  have hpre : preTypingRules h (stripStr (lowerStr inp.text)) inp.text
      inp.chromeFound = some (CmdResult.getTime, StateUpd.keep) := by
    unfold preTypingRules
    rw [htl]
    exact firstSome_cons_some _ _
  have hp : processCommand h inp =
      (some CmdResult.getTime, applyUpd h StateUpd.keep) := by
    unfold processCommand
    rw [hpre]
  rw [hp]
  exact ⟨rfl, rfl⟩

/-- Witness for claim C5: "search the time" contains both tokens, yet
is answered by get_time. -/
theorem claim_c5_witness :
    hasSub (stripStr (lowerStr (cmdInput (str "search the time")).text))
      (str "time") = true ∧
    ((processCommand hInit (cmdInput (str "search the time"))).1 =
        some CmdResult.getTime ∧
      isGoogleSearchRes
        (processCommand hInit (cmdInput (str "search the time"))).1 = false) :=
  ⟨by decide, claim_c5 hInit (cmdInput (str "search the time")) (by decide)⟩

/-!
## Claim C6

The three query-extraction cases of the generic search rule (lines
639-673): "search for X" drops the marker and strips, "search X" uses
the prefix pattern, and "search this on chrome" is excluded and lands
on the selected-text rule instead of the Google-search effector.
-/

/-- Claim C6: the three specified query-extraction behaviours of the
generic search rule. -/
theorem claim_c6 :
    (processCommand hInit (cmdInput (str "search for best pizza places"))).1 =
      some (CmdResult.searchGoogle (str "best pizza places")) ∧
    (processCommand hInit (cmdInput (str "search weather today"))).1 =
      some (CmdResult.searchGoogle (str "weather today")) ∧
    (processCommand hInit (cmdInput (str "search this on chrome"))).1 =
      some CmdResult.searchSelectedInChrome ∧
    isGoogleSearchRes
      (processCommand hInit (cmdInput (str "search this on chrome"))).1 =
      false := by
  decide

/-!
## Claim C7

The claim asserts that every utterance containing "type " has its
literal original-cased suffix after the last "type " passed to the
typing effector. This fails on the code: earlier rules can intercept
the utterance first (the dialog-cancel rule swallows "type a note"
because "no" occurs in "note"), the trigger in the original text must
itself be lower-case for the removal to fire, and "please" substrings
are removed from the suffix. Under exactly those provisos the
extraction is the literal suffix, which is the amended claim.
-/

/-- Claim C7, counterexample: "type a note" is captured by the earlier
dialog-cancel rule, so the typing effector never receives the suffix
"a note". -/
theorem claim_c7_counterexample :
    (processCommand hInit (cmdInput (str "type a note"))).1 =
      some (CmdResult.confirmDialog false) ∧
    ¬ (processCommand hInit (cmdInput (str "type a note"))).1 =
      some (CmdResult.typeText (str "a note")) := by
  decide

/-- Claim C7, amended: when no earlier rule fires, the last occurrence
of "type " in the normalised text sits at position i, the original text
carries the lower-case trigger literally at that position, and the
suffix after it contains no "please" and no surrounding whitespace,
then the typing effector receives exactly that literal original-cased
suffix. -/
theorem claim_c7_amended (h : HState) (inp : CmdIn) (i : Nat)
    (hpre : preTypingRules h (stripStr (lowerStr inp.text)) inp.text
      inp.chromeFound = none)
    (hidx : rfindIdx (stripStr (lowerStr inp.text)) (str "type ") = some i)
    (hlit : (str "type ").isPrefixOf (inp.text.drop i) = true)
    (hnp : hasSub (inp.text.drop (i + 5)) (str "please") = false)
    (hstrip : stripStr (inp.text.drop (i + 5)) = inp.text.drop (i + 5))
    (hne : inp.text.drop (i + 5) ≠ []) :
    (processCommand h inp).1 =
      some (CmdResult.typeText (inp.text.drop (i + 5))) := by
  have hts : hasSub (stripStr (lowerStr inp.text)) (str "type ") = true :=
    hasSub_of_rfindIdx hidx
  have hrf : replaceFirst (inp.text.drop i) (str "type ") [] =
      inp.text.drop (i + 5) := by
    rw [replaceFirst_of_isPrefixOf (by decide) hlit, List.drop_drop]
    rfl
  have htyping : ruleTyping (stripStr (lowerStr inp.text)) inp.text =
      some (CmdResult.typeText (inp.text.drop (i + 5)), StateUpd.keep) := by
    unfold ruleTyping
    rw [if_pos hts, hidx]
    dsimp only
    rw [hrf, replaceAll_of_not_hasSub hnp, hstrip]
    rw [if_neg (by simp [List.isEmpty_iff, hne])]
  have hp : processCommand h inp =
      (some (CmdResult.typeText (inp.text.drop (i + 5))),
        applyUpd h StateUpd.keep) := by
    unfold processCommand
    rw [hpre, htyping]
  rw [hp]

/-- Witness for claim C7 on "type Hello World!": the effector receives
the original-cased suffix "Hello World!". -/
theorem claim_c7_witness :
    (preTypingRules hInit
        (stripStr (lowerStr (cmdInput (str "type Hello World!")).text))
        (cmdInput (str "type Hello World!")).text
        (cmdInput (str "type Hello World!")).chromeFound = none) ∧
    (rfindIdx (stripStr (lowerStr (cmdInput (str "type Hello World!")).text))
        (str "type ") = some 0) ∧
    ((str "type ").isPrefixOf
        ((cmdInput (str "type Hello World!")).text.drop 0) = true) ∧
    (hasSub ((cmdInput (str "type Hello World!")).text.drop (0 + 5))
        (str "please") = false) ∧
    (stripStr ((cmdInput (str "type Hello World!")).text.drop (0 + 5)) =
        (cmdInput (str "type Hello World!")).text.drop (0 + 5)) ∧
    ((cmdInput (str "type Hello World!")).text.drop (0 + 5) ≠ []) ∧
    ((processCommand hInit (cmdInput (str "type Hello World!"))).1 =
      some (CmdResult.typeText
        ((cmdInput (str "type Hello World!")).text.drop (0 + 5)))) :=
  ⟨by decide, by decide, by decide, by decide, by decide, by decide,
   claim_c7_amended hInit (cmdInput (str "type Hello World!")) 0
     (by decide) (by decide) (by decide) (by decide) (by decide) (by decide)⟩

/-!
## Claim C8

The mute intercept (app.py lines 319-339) runs before the confirmation
state machine and the router: any utterance containing "stop" mutes
voice output and returns immediately, so the pending system action and
the handler context are untouched, even while a confirmation is
pending, and the only effector invocation of the turn is the mute.
-/

/-- Claim C8: every utterance containing "stop" short-circuits the
turn, mutes voice output, leaves pending action and session context
unchanged, and performs only the mute effect. -/
theorem claim_c8 (st : OrchState) (inp : TurnIn)
    (hs : hasSub (lowerStr inp.text) (str "stop") = true) :
    (handleRecognizedText st inp).1.pending = st.pending ∧
    (handleRecognizedText st inp).1.handler = st.handler ∧
    (handleRecognizedText st inp).1.muted = true ∧
    (handleRecognizedText st inp).2 = [Effect.ttsMute] := by
  have hne : inp.text.isEmpty = false := by
    cases htext : inp.text with
    | nil =>
      rw [htext] at hs
      exact absurd hs (by decide)
    | cons c cs => rfl
  have ha : anyIn (lowerStr inp.text) [str "stop", str "chup ho jao"] = true := by
    unfold anyIn
    rw [List.any_eq_true]
    exact ⟨str "stop", by simp, hs⟩
  simp [handleRecognizedText, hne, ha]

/-- Witness for claim C8: "please stop" while a shutdown confirmation
is pending mutes output and leaves the pending action in place. -/
theorem claim_c8_witness :
    hasSub (lowerStr (turnInput (str "please stop")).text) (str "stop") = true ∧
    ((handleRecognizedText { orchInit with pending := some SysAction.shutdown }
        (turnInput (str "please stop"))).1.pending =
      ({ orchInit with pending := some SysAction.shutdown } : OrchState).pending ∧
     (handleRecognizedText { orchInit with pending := some SysAction.shutdown }
        (turnInput (str "please stop"))).1.handler =
      ({ orchInit with pending := some SysAction.shutdown } : OrchState).handler ∧
     (handleRecognizedText { orchInit with pending := some SysAction.shutdown }
        (turnInput (str "please stop"))).1.muted = true ∧
     (handleRecognizedText { orchInit with pending := some SysAction.shutdown }
        (turnInput (str "please stop"))).2 = [Effect.ttsMute]) :=
  ⟨by decide,
   claim_c8 { orchInit with pending := some SysAction.shutdown }
     (turnInput (str "please stop")) (by decide)⟩

end Nova
